import Mathlib

/-!
Verification of the VAWA grading pipeline (`new_grading_vawa`).

This file gives a shallow embedding of the pipeline's core logic and proves
the specification claims against it.  Definitions are translated from the
Python source:

* `src/services/chat_service.py`   — `ChatService` (review flow, send retry)
* `src/services/sheets_service.py` — `SheetsService` (job store)
* `src/services/drive_service.py`  — retry decorators (tenacity policy)
* `src/workflows/grading_process.py` — `GradingProcess` (pipeline driver)
* `src/config.py`                  — `Config` constants

External effects (Google Sheets / Drive / Vertex AI) are modelled by
environment records supplying the outcome of each remote call; each modelled
function returns its result together with the list of observable effects it
performed, in order.
-/

/-! ### Configuration constants (`src/config.py`) -/

def APP_VERSION : String := "v1.0.0"

def MAX_RETRIES : Nat := 5

def RETRY_MIN_WAIT : Nat := 1

def RETRY_MAX_WAIT : Nat := 60

def URL_PROMPT_QUALIFYING : String :=
  "https://docs.google.com/document/d/1hN5A0vZukBqMln85fAT6PkU9lKXY8qcAKyhl-d3mJUA/edit?usp=sharing"

def URL_PROMPT_GFM : String :=
  "https://docs.google.com/document/d/1aptWDOCU77CKOyphOkz1pqqSw-WLLUSfBFtSjnYk3SI/edit?usp=sharing"

def URL_PROMPT_JOINT_RESIDENCE : String :=
  "https://docs.google.com/document/d/1ujizq9fY_M6m2TFHVSONVBM8zwqqbR_xk6dmR6mX544/edit?usp=sharing"

def URL_PROMPT_GMC_PB : String :=
  "https://docs.google.com/document/d/1h7ladm7IK4A40B7CHAxaZ8QkVcFViQe9pSqeYwxusIE/edit?usp=sharing"

def URL_PROMPT_ABUSE : String :=
  "https://docs.google.com/document/d/1M8GpNZLy0Kmy5umA48nHNA_RjZtJb3wqpSJTmXCLgoA/edit?usp=sharing"

def URL_PROMPT_AUDITORIA : String :=
  "https://docs.google.com/document/d/1HHH7wq1XSbWdJgU9M3rvfinzBi7SjirWS77mBloOJhw/edit?usp=sharing"

/-! ### Retry loops

`RetryTrace` records the outcome of a retried call: the value returned (or
the exception finally propagated), the sleeps performed between attempts
(in seconds), and how many times the underlying call was invoked.
`result = none` corresponds to the Python loop falling through without an
attempt (only possible with a zero retry budget). -/

deriving instance DecidableEq for Except

structure RetryTrace (α : Type) where
  result : Option (Except String α)
  delays : List Nat
  calls : Nat
  deriving DecidableEq, Repr

/-- Embedding of `ChatService._send_message_with_retry`
(`src/services/chat_service.py`): `for i in range(retries)`, attempt the
send; on failure re-raise when `i = retries - 1`, otherwise sleep `2 ** i`
seconds and try again.  `send i` is the outcome of the attempt with loop
index `i`; the first argument of the recursion is the current loop index,
the second the number of loop iterations left. -/
def sendAttempts (send : Nat → Except String α) : Nat → Nat → RetryTrace α
  | _, 0 => ⟨none, [], 0⟩
  | i, fuel + 1 =>
    match send i with
    | .ok r => ⟨some (.ok r), [], 1⟩
    | .error e =>
      if fuel = 0 then ⟨some (.error e), [], 1⟩
      else
        let t := sendAttempts send (i + 1) fuel
        ⟨t.result, 2 ^ i :: t.delays, t.calls + 1⟩

/-- `ChatService._send_message_with_retry(content, retries=3)`. -/
def send_message_with_retry (send : Nat → Except String α) (retries : Nat) : RetryTrace α :=
  sendAttempts send 0 retries

/-- Sleep chosen by tenacity's `wait_exponential(multiplier=1,
min=RETRY_MIN_WAIT, max=RETRY_MAX_WAIT)` after failed attempt number `n`
(1-based), as configured on the `@retry` decorators in
`src/services/drive_service.py`: the library computes
`max(min(multiplier * 2 ** attempt_number, max), min)`. -/
def tenacityWait (n : Nat) : Nat :=
  max (min (2 ^ n) RETRY_MAX_WAIT) RETRY_MIN_WAIT

/-- Retry loop of the tenacity `@retry(stop=stop_after_attempt(Config.MAX_RETRIES),
wait=wait_exponential(...))` decorator wrapping the remote calls in
`src/services/drive_service.py` (e.g. `DriveService.download_as_pdf`).
`call n` is the outcome of attempt number `n` (1-based); after a failed
attempt `n < MAX_RETRIES` the loop sleeps `tenacityWait n` and retries;
after the `MAX_RETRIES`-th failure the error surfaces. -/
def tenacityAttempts (call : Nat → Except String α) : Nat → Nat → RetryTrace α
  | _, 0 => ⟨none, [], 0⟩
  | n, fuel + 1 =>
    match call n with
    | .ok r => ⟨some (.ok r), [], 1⟩
    | .error e =>
      if fuel = 0 then ⟨some (.error e), [], 1⟩
      else
        let t := tenacityAttempts call (n + 1) fuel
        ⟨t.result, tenacityWait n :: t.delays, t.calls + 1⟩

/-- A remote call wrapped by the drive-service retry decorator. -/
def tenacity_retry_call (call : Nat → Except String α) : RetryTrace α :=
  tenacityAttempts call 1 MAX_RETRIES

/-! ### Chat service (`src/services/chat_service.py`) -/

/-- A Vertex AI response: `response.text` and its `usage_metadata` fields. -/
structure StepResponse where
  text : String
  prompt_token_count : Nat
  candidates_token_count : Nat
  deriving DecidableEq, Repr

/-- One part of an outgoing chat message: the prompt text, or an attached
PDF (`Part.from_data(data=..., mime_type="application/pdf")`). -/
inductive MsgPart where
  | text (s : String)
  | pdf (data : String)
  deriving DecidableEq, Repr

/-- Environment for `ChatService`: outcome of `_fetch_doc_text` per URL,
the bytes read from a local file path, and the outcome of
`chat_session.send_message` for the `i`-th outgoing message on its `a`-th
retry attempt. -/
structure ChatEnv where
  fetch : String → Except String String
  readFile : String → String
  send : Nat → Nat → Except String StepResponse

/-- The `flow_steps` list of `ChatService.execute_grading_flow`:
`(step name, prompt URL, attach patient files here)`. -/
def flow_steps : List (String × String × Bool) :=
  [("Qualifying Relationship", URL_PROMPT_QUALIFYING, true),
   ("Good Faith Character (GFC)", URL_PROMPT_GFM, false),
   ("Joint Residence", URL_PROMPT_JOINT_RESIDENCE, false),
   ("GMC / Permanent Bar", URL_PROMPT_GMC_PB, false),
   ("Presence of Abuse", URL_PROMPT_ABUSE, false),
   ("Auditoria Final", URL_PROMPT_AUDITORIA, false)]

/-- Outcome of `execute_grading_flow`: the returned
`(final_text, token_counts)` (or the propagated exception) together with
the outgoing messages actually sent, in order. -/
structure FlowOutcome where
  result : Except String (String × Nat × Nat)
  sent : List (List MsgPart)
  deriving Repr

/-- The step loop of `ChatService.execute_grading_flow`.  For each step:
fetch the prompt text (a failure propagates), build
`message_parts = [prompt_text] (+ patient PDFs if this is the attach step
and the file list is non-empty)`, and send it through
`_send_message_with_retry`.  After the loop the *last* response provides
`final_text` and the token counts.  `i` is the index of the next outgoing
message, `last` the response of the previous step. -/
def runSteps (env : ChatEnv) (files : List String) :
    List (String × String × Bool) → Nat → Option StepResponse →
    Except String (String × Nat × Nat) × List (List MsgPart)
  | [], _, last =>
    (match last with
     | some r => .ok (r.text, r.prompt_token_count, r.candidates_token_count)
     | none => .error "NameError: response is not defined", [])
  | (_, url, attach) :: rest, i, _ =>
    match env.fetch url with
    | .error e => (.error e, [])
    | .ok ptext =>
      let parts := MsgPart.text ptext ::
        cond (attach && !files.isEmpty)
          (files.map (fun p => MsgPart.pdf (env.readFile p))) []
      match (send_message_with_retry (env.send i) 3).result with
      | some (.ok resp) =>
        let rec' := runSteps env files rest (i + 1) (some resp)
        (rec'.1, parts :: rec'.2)
      | some (.error e) => (.error e, [parts])
      | none => (.error "unreachable: empty retry budget", [parts])

/-- `ChatService.execute_grading_flow(patient_files_paths)`.  Raises
`ValueError` when the chat session was never initialized. -/
def execute_grading_flow (env : ChatEnv) (initialized : Bool) (files : List String) :
    FlowOutcome :=
  if initialized then
    let r := runSteps env files flow_steps 0 none
    ⟨r.1, r.2⟩
  else
    ⟨.error "La sesión de chat no ha sido inicializada.", []⟩

/-! ### Sheets service (`src/services/sheets_service.py`) -/

/-- Environment for `SheetsService`: whether each underlying gspread write
succeeds.  `cellWriteOk row status` decides `sheet.update_cell(row, COL_STATUS,
status)`, `batchOk row` decides the `batch_update` of
`mark_processing_start`, and `rangeWriteOk row` decides the
`sheet.update('K{row}:R{row}', ...)` of `write_grading_results`. -/
structure SheetsEnv where
  cellWriteOk : Nat → String → Bool
  batchOk : Nat → Bool
  rangeWriteOk : Nat → Bool

/-- The row of values written to columns K–R by
`SheetsService.write_grading_results`. -/
structure RowValues where
  k_grading_link : String
  l_blank : String
  m_tokens_in : Nat
  n_tokens_out : Nat
  o_app_version : String
  p_start_time : Nat
  q_end_time : Nat
  r_duration_centimin : Nat
  deriving DecidableEq, Repr

/-- Observable side effects on the job store and remote services, in the
order they are attempted.  Each sheet-write effect carries whether the
underlying write succeeded. -/
inductive Effect where
  | cellWrite (row : Nat) (status : String) (ok : Bool)
  | batchStart (row : Nat) (time : Nat) (ok : Bool)
  | rangeWrite (row : Nat) (values : RowValues) (ok : Bool)
  | download (docType url : String) (ok : Bool)
  | aiCall
  | upload (ok : Bool)
  deriving DecidableEq, Repr

/-- The raw `sheet.update_cell(row, COL_STATUS, status)` call. -/
def update_cell (env : SheetsEnv) (row : Nat) (status : String) : Except String Unit :=
  if env.cellWriteOk row status then .ok () else .error "update_cell failed"

/-- `SheetsService.update_status`: writes column C; any exception from the
underlying write is caught and logged, never re-raised. -/
def update_status (env : SheetsEnv) (row : Nat) (status : String) :
    Except String Unit × List Effect :=
  match update_cell env row status with
  | .ok _ => (.ok (), [Effect.cellWrite row status true])
  | .error _ => (.ok (), [Effect.cellWrite row status false])

/-- The raw `sheet.batch_update([...])` call of `mark_processing_start`. -/
def batch_update (env : SheetsEnv) (row : Nat) : Except String Unit :=
  if env.batchOk row then .ok () else .error "batch_update failed"

/-- `SheetsService.mark_processing_start`: one batched write setting status
`PROCESSING` (column C) and the start timestamp (column P); any exception is
caught and logged, never re-raised. -/
def mark_processing_start (env : SheetsEnv) (now : Nat) (row : Nat) :
    Except String Unit × List Effect :=
  match batch_update env row with
  | .ok _ => (.ok (), [Effect.batchStart row now true])
  | .error _ => (.ok (), [Effect.batchStart row now false])

/-- `result_data` as consumed by `write_grading_results`: a Python dict
whose keys may be absent (`result_data.get(key, default)`). -/
structure ResultData where
  grading_url : Option String
  tokens_in : Option Nat
  tokens_out : Option Nat
  start_time : Option Nat
  deriving DecidableEq, Repr

/-- `round((end - start).total_seconds() / 60, 2)` expressed exactly in
centiminutes: `round(secs * 100 / 60) = floor(5 * secs / 3 + 1 / 2)
= (10 * secs + 3) / 6`.  Rounding ties never occur (`10 * secs + 3` is odd,
a tie would need `5 * secs / 3 + 1 / 2` integral, i.e. `10 * secs + 3`
divisible by 6), so Python's round-half-even agrees with this value. -/
def durationCentimin (secs : Nat) : Nat := (10 * secs + 3) / 6

/-- The values `write_grading_results` assembles for columns K–R.
Timestamps are seconds; `start_time` defaults to `end_time` when the key is
absent (`result_data.get('start_time', end_time)`).  The duration written to
column R is `round((end_time - start_time).total_seconds() / 60, 2)`,
represented exactly in centiminutes. -/
def mkRowValues (endT : Nat) (d : ResultData) : RowValues :=
  let startT := d.start_time.getD endT
  { k_grading_link := d.grading_url.getD ""
    l_blank := ""
    m_tokens_in := d.tokens_in.getD 0
    n_tokens_out := d.tokens_out.getD 0
    o_app_version := APP_VERSION
    p_start_time := startT
    q_end_time := endT
    r_duration_centimin := durationCentimin (endT - startT) }

/-- The raw `sheet.update(range_name='K{row}:R{row}', values=values)` call. -/
def rangeUpdate (env : SheetsEnv) (row : Nat) : Except String Unit :=
  if env.rangeWriteOk row then .ok () else .error "range update failed"

/-- `SheetsService.write_grading_results(row_idx, result_data)`: writes
K–R then sets status `COMPLETED`; if the write raises, sets status
`ERROR SAVING RESULTS` instead.  Nothing is re-raised in either case. -/
def write_grading_results (env : SheetsEnv) (endT : Nat) (row : Nat) (d : ResultData) :
    Except String Unit × List Effect :=
  let vals := mkRowValues endT d
  match rangeUpdate env row with
  | .ok _ => (.ok (), Effect.rangeWrite row vals true :: (update_status env row "COMPLETED").2)
  | .error _ =>
    (.ok (), Effect.rangeWrite row vals false :: (update_status env row "ERROR SAVING RESULTS").2)

/-- One job record as assembled by `get_pending_rows` (`row_data` dict). -/
structure Job where
  row_idx : Nat
  client_id : String
  client_name : String
  caratula : String
  transcript : String
  evidencias : String
  dair : String
  fair : String
  rapsheet : String
  summary : String
  deriving DecidableEq, Repr

/-- Python `str.strip()`: drop leading and trailing whitespace. -/
def pyStrip (s : String) : String :=
  ⟨((s.data.dropWhile Char.isWhitespace).reverse.dropWhile Char.isWhitespace).reverse⟩

/-- Python `str[:n]`: the first `n` characters (code points). -/
def pyTake (s : String) (n : Nat) : String :=
  ⟨s.data.take n⟩

/-- `row[col - 1] if len(row) >= col else ""` (1-based column access). -/
def cellAt (row : List String) (col : Nat) : String :=
  if col ≤ row.length then row.getD (col - 1) "" else ""

/-- The scan loop of `SheetsService.get_pending_rows` over `all_values`:
`idx` is the 1-based index of the first row of the remaining list.  Row 1
(the header) is skipped; a row is considered only when it has a status cell
(column C); a `PENDING PROCESSING` row missing either main link (columns E
or J) is written back `ERROR: MAIN LINK MISSING` and skipped; otherwise a
job record is appended. -/
def scanRows (env : SheetsEnv) : Nat → List (List String) → List Job × List Effect
  | _, [] => ([], [])
  | idx, row :: rest =>
    let acc := scanRows env (idx + 1) rest
    if idx = 1 then acc
    else if 3 ≤ row.length then
      if pyStrip (cellAt row 3) = "PENDING PROCESSING" then
        if cellAt row 5 = "" ∨ cellAt row 10 = "" then
          (acc.1, (update_status env idx "ERROR: MAIN LINK MISSING").2 ++ acc.2)
        else
          ({ row_idx := idx
             client_id := row.getD 0 ""
             client_name := row.getD 1 ""
             caratula := cellAt row 4
             transcript := cellAt row 5
             evidencias := cellAt row 6
             dair := cellAt row 7
             fair := cellAt row 8
             rapsheet := cellAt row 9
             summary := cellAt row 10 } :: acc.1, acc.2)
      else acc
    else acc

/-- `SheetsService.get_pending_rows()`: returns the ready jobs (ascending
row order) and the status writes performed during the scan, given the
sheet's `get_all_values()` result. -/
def get_pending_rows (env : SheetsEnv) (allValues : List (List String)) :
    List Job × List Effect :=
  scanRows env 1 allValues

/-! ### Pipeline driver (`src/workflows/grading_process.py`) -/

/-- Environment for one pipeline run: the sheets backend, the chat
environment, the wall-clock at `mark_processing_start` and at
`write_grading_results`, the outcome of `download_as_pdf` per source URL,
and the outcome of the final Drive upload (its `webViewLink`). -/
structure JobEnv where
  sheets : SheetsEnv
  chat : ChatEnv
  nowStart : Nat
  nowEnd : Nat
  download : String → Except String Unit
  uploadRes : Except String String

/-- The `docs_to_download` list of `GradingProcess.process_single_case`. -/
def docs_to_download (j : Job) : List (String × String) :=
  [("caratula", j.caratula), ("transcript", j.transcript),
   ("evidencias", j.evidencias), ("dair", j.dair), ("fair", j.fair),
   ("rapsheet", j.rapsheet), ("summary", j.summary)]

/-- The download loop of `process_single_case`: for each `(doc_type, url)`
with `url and len(url) > 5`, attempt `download_as_pdf`; a per-document
failure is logged and skipped.  Returns the collected local PDF paths (in
document order) and the download effects. -/
def downloadLoop (download : String → Except String Unit) :
    List (String × String) → List String × List Effect
  | [] => ([], [])
  | (docType, url) :: rest =>
    let acc := downloadLoop download rest
    if 5 < url.length then
      match download url with
      | .ok _ => ((docType ++ ".pdf") :: acc.1, Effect.download docType url true :: acc.2)
      | .error _ => (acc.1, Effect.download docType url false :: acc.2)
    else acc

/-- Message of the `ValueError` raised when no patient document could be
downloaded. -/
def noDocsMsg : String := "No se pudieron descargar documentos válidos para el cliente."

/-- The status written by the per-job exception handler:
`f"ERROR: {str(e)[:50]}"`. -/
def truncMsg (e : String) : String := "ERROR: " ++ pyTake e 50

/-- `GradingProcess.process_single_case(row_data)`: marks the row started,
downloads and normalizes the patient documents, runs the review flow,
uploads the deliverable and writes the results; any exception is caught
per job and turned into an `ERROR: <first 50 chars>` status write.  The
function always returns (the runner proceeds to the next job). -/
def process_single_case (env : JobEnv) (j : Job) : List Effect :=
  let startEffs := (mark_processing_start env.sheets env.nowStart j.row_idx).2
  let dl := downloadLoop env.download (docs_to_download j)
  if dl.1.isEmpty then
    startEffs ++ dl.2 ++ (update_status env.sheets j.row_idx (truncMsg noDocsMsg)).2
  else
    match (execute_grading_flow env.chat true dl.1).result with
    | .error e =>
      startEffs ++ dl.2 ++ [Effect.aiCall]
        ++ (update_status env.sheets j.row_idx (truncMsg e)).2
    | .ok (_, tin, tout) =>
      match env.uploadRes with
      | .error e =>
        startEffs ++ dl.2 ++ [Effect.aiCall, Effect.upload false]
          ++ (update_status env.sheets j.row_idx (truncMsg e)).2
      | .ok link =>
        startEffs ++ dl.2 ++ [Effect.aiCall, Effect.upload true]
          ++ (write_grading_results env.sheets env.nowEnd j.row_idx
                ⟨some link, some tin, some tout, none⟩).2

/-- The per-job loop of `GradingProcess.run`: every pending row is
processed in order. -/
def process_all (env : JobEnv) : List Job → List Effect
  | [] => []
  | j :: rest => process_single_case env j ++ process_all env rest

/-! ### Erasure of sheet-write success flags

Used to state that control flow never depends on whether a swallowed
status write succeeded. -/

/-- Erase the success flag of every sheet-write effect (download/upload
outcomes are kept: they do influence control flow). -/
def eraseOk : Effect → Effect
  | .cellWrite row st _ => .cellWrite row st true
  | .batchStart row t _ => .batchStart row t true
  | .rangeWrite row v _ => .rangeWrite row v true
  | e => e

/-- The effect trace of `process_single_case` with sheet-write success
flags erased: it depends on the sheets backend only through
`rangeWriteOk` (which decides whether `COMPLETED` or
`ERROR SAVING RESULTS` is subsequently written). -/
def erasedProcess (download : String → Except String Unit) (chat : ChatEnv)
    (up : Except String String) (rOk : Nat → Bool) (nowS nowE : Nat) (j : Job) :
    List Effect :=
  let dl := downloadLoop download (docs_to_download j)
  let startE := [Effect.batchStart j.row_idx nowS true]
  if dl.1.isEmpty then
    startE ++ dl.2 ++ [Effect.cellWrite j.row_idx (truncMsg noDocsMsg) true]
  else
    match (execute_grading_flow chat true dl.1).result with
    | .error e =>
      startE ++ dl.2 ++ [Effect.aiCall, Effect.cellWrite j.row_idx (truncMsg e) true]
    | .ok (_, tin, tout) =>
      match up with
      | .error e =>
        startE ++ dl.2
          ++ [Effect.aiCall, Effect.upload false,
              Effect.cellWrite j.row_idx (truncMsg e) true]
      | .ok link =>
        startE ++ dl.2
          ++ [Effect.aiCall, Effect.upload true,
              Effect.rangeWrite j.row_idx
                (mkRowValues nowE ⟨some link, some tin, some tout, none⟩) true,
              Effect.cellWrite j.row_idx
                (if rOk j.row_idx then "COMPLETED" else "ERROR SAVING RESULTS") true]

/-! ### Concrete inputs used by witnesses and counterexamples -/

/-- A send that fails on every attempt. -/
def cFailSend : Nat → Except String Unit := fun _ => .error "vertex down"

/-- A retried remote call that fails with a transient error on every
attempt. -/
def cFailCall : Nat → Except String Unit := fun _ => .error "http 500"

/-- A sheets backend where every write succeeds. -/
def allOkSheets : SheetsEnv := ⟨fun _ _ => true, fun _ => true, fun _ => true⟩

/-- A sheets backend where the K–R results write fails but plain status
writes succeed. -/
def failRangeSheets : SheetsEnv := ⟨fun _ _ => true, fun _ => true, fun _ => false⟩

/-- Per-step responses with distinguishable usage metadata. -/
def stepResp (i : Nat) : StepResponse :=
  ⟨"response " ++ toString i, 100 * (i + 1), 7 * (i + 1)⟩

/-- A chat environment where every fetch and send succeeds, message `i`
receiving `stepResp i`. -/
def varChatEnv : ChatEnv :=
  ⟨fun u => .ok ("PROMPT " ++ u), fun p => "BYTES " ++ p, fun i _ => .ok (stepResp i)⟩

/-- Sheet contents with a header row and one `PENDING PROCESSING` row
missing both main links. -/
def wRows : List (List String) :=
  [["h1", "h2", "h3"], ["id1", "Alice", "PENDING PROCESSING"]]

/-- A job whose seven document locators all look plausible. -/
def c3Job : Job :=
  { row_idx := 4, client_id := "id4", client_name := "Bob"
    caratula := "car-123456", transcript := "tra-123456", evidencias := "evi-123456"
    dair := "dai-123456", fair := "fai-123456", rapsheet := "rap-123456"
    summary := "sum-123456" }

/-- A run environment where every document download fails. -/
def c3Env : JobEnv :=
  ⟨allOkSheets, varChatEnv, 500, 900, fun _ => .error "HttpError 404", .ok "http://out"⟩

/-- A job with valid main links only. -/
def c4Job : Job :=
  { row_idx := 2, client_id := "id2", client_name := "Ana"
    caratula := "", transcript := "tra-123456", evidencias := ""
    dair := "", fair := "", rapsheet := "", summary := "sum-123456" }

/-- A run environment for a fully successful job: the row is marked
started at t = 1000 s and the results are written at t = 1120 s
(two minutes later). -/
def c4Env : JobEnv :=
  ⟨allOkSheets, varChatEnv, 1000, 1120, fun _ => .ok (), .ok "http://result-link"⟩

/-! ## Claims -/

/-- C6 counterexample: the claim states that a persistently failing send is
retried with delays 1 s, 2 s, then 4 s before the error propagates.  On a
send failing every attempt, `_send_message_with_retry` (3 attempts in
total) actually sleeps only 1 s and then 2 s: the error is re-raised on
the third failure before any 4-second delay. -/
theorem c6_counterexample :
    (send_message_with_retry cFailSend 3).delays = [1, 2]
    ∧ (send_message_with_retry cFailSend 3).delays ≠ [1, 2, 4]
    ∧ (send_message_with_retry cFailSend 3).result = some (.error "vertex down")
    ∧ (send_message_with_retry cFailSend 3).calls = 3 := by
  decide

/-- C6 (amended): a failing send is attempted 3 times in total, with the
inter-attempt delay doubling (1 s then 2 s); after the third failed
attempt the last error propagates immediately, with no further delay. -/
theorem c6_send_retry (send : Nat → Except String Unit) (e : Nat → String)
    (h : ∀ i, send i = .error (e i)) :
    send_message_with_retry send 3 = ⟨some (.error (e 2)), [1, 2], 3⟩ := by
  simp [send_message_with_retry, sendAttempts, h]

/-- C6 witness: the amended theorem applied to the always-failing send. -/
theorem c6_send_retry_witness :
    (∀ i, cFailSend i = .error "vertex down")
    ∧ send_message_with_retry cFailSend 3 = ⟨some (.error "vertex down"), [1, 2], 3⟩ :=
  ⟨fun _ => rfl, c6_send_retry cFailSend (fun _ => "vertex down") (fun _ => rfl)⟩

/-- C7 counterexample: the claim states the inter-attempt delays start at
1 second.  With `wait_exponential(multiplier=1, min=1, max=60)` the sleep
after failed attempt `n` is `max(min(2 ^ n, 60), 1)`, so a persistently
failing call sleeps 2, 4, 8, 16 seconds: the first delay is 2 s, not 1 s. -/
theorem c7_counterexample :
    (tenacity_retry_call cFailCall).delays = [2, 4, 8, 16]
    ∧ (tenacity_retry_call cFailCall).delays.head? ≠ some 1
    ∧ (tenacity_retry_call cFailCall).calls = 5 := by
  decide

/-- C7 (amended): a retried remote call failing with a transient error on
every attempt fails after exactly `MAX_RETRIES = 5` attempts; the
inter-attempt delays are exponential with configured minimum 1 s and cap
60 s — concretely 2 s, 4 s, 8 s, 16 s — monotonically non-decreasing and
all within the cap. -/
theorem c7_retry_ceiling (call : Nat → Except String Unit) (e : Nat → String)
    (h : ∀ n, call n = .error (e n)) :
    tenacity_retry_call call = ⟨some (.error (e 5)), [2, 4, 8, 16], 5⟩
    ∧ List.Chain' (· ≤ ·) (tenacity_retry_call call).delays
    ∧ ∀ d ∈ (tenacity_retry_call call).delays,
        RETRY_MIN_WAIT ≤ d ∧ d ≤ RETRY_MAX_WAIT := by
  have hm : tenacity_retry_call call = ⟨some (.error (e 5)), [2, 4, 8, 16], 5⟩ := by
    simp [tenacity_retry_call, tenacityAttempts, tenacityWait, MAX_RETRIES,
      RETRY_MIN_WAIT, RETRY_MAX_WAIT, h]
  refine ⟨hm, ?_, ?_⟩
  · rw [hm]
    show List.Chain' (· ≤ ·) [2, 4, 8, 16]
    simp [List.chain'_cons]
  · rw [hm]
    show ∀ d ∈ [2, 4, 8, 16], RETRY_MIN_WAIT ≤ d ∧ d ≤ RETRY_MAX_WAIT
    decide

/-- C7 witness: the amended theorem applied to the always-failing call. -/
theorem c7_retry_ceiling_witness :
    (∀ n, cFailCall n = .error "http 500")
    ∧ tenacity_retry_call cFailCall = ⟨some (.error "http 500"), [2, 4, 8, 16], 5⟩ :=
  ⟨fun _ => rfl, (c7_retry_ceiling cFailCall (fun _ => "http 500") (fun _ => rfl)).1⟩

/-- C5: when the K–R results write fails, `write_grading_results` sets
status `ERROR SAVING RESULTS` instead of `COMPLETED`, and the failure is
not re-raised to the caller. -/
theorem c5_write_back_failure (env : SheetsEnv) (endT row : Nat) (d : ResultData)
    (hfail : env.rangeWriteOk row = false) :
    (write_grading_results env endT row d).1 = .ok ()
    ∧ (∃ b, Effect.cellWrite row "ERROR SAVING RESULTS" b
        ∈ (write_grading_results env endT row d).2)
    ∧ ∀ b, Effect.cellWrite row "COMPLETED" b ∉ (write_grading_results env endT row d).2 := by
  cases hcw : env.cellWriteOk row "ERROR SAVING RESULTS" <;>
    refine ⟨?_, ?_, ?_⟩ <;>
      simp [write_grading_results, rangeUpdate, hfail, update_status, update_cell, hcw]

/-- C5 witness: the theorem at a backend whose results write fails. -/
theorem c5_write_back_failure_witness :
    failRangeSheets.rangeWriteOk 2 = false
    ∧ ((write_grading_results failRangeSheets 1120 2 ⟨none, none, none, none⟩).1 = .ok ()
      ∧ (∃ b, Effect.cellWrite 2 "ERROR SAVING RESULTS" b
          ∈ (write_grading_results failRangeSheets 1120 2 ⟨none, none, none, none⟩).2)
      ∧ ∀ b, Effect.cellWrite 2 "COMPLETED" b
          ∉ (write_grading_results failRangeSheets 1120 2 ⟨none, none, none, none⟩).2) :=
  ⟨rfl, c5_write_back_failure failRangeSheets 1120 2 ⟨none, none, none, none⟩ rfl⟩

/-- Characterization of a fully successful review flow: when every prompt
fetch succeeds and every step's retried send succeeds, the flow sends
exactly the six step prompts in order (patient files attached to the first
message only, in order) and returns the final step's text and usage. -/
theorem flow_run_ok (env : ChatEnv) (files : List String)
    (p1 p2 p3 p4 p5 p6 : String) (resp : Nat → StepResponse)
    (h1 : env.fetch URL_PROMPT_QUALIFYING = .ok p1)
    (h2 : env.fetch URL_PROMPT_GFM = .ok p2)
    (h3 : env.fetch URL_PROMPT_JOINT_RESIDENCE = .ok p3)
    (h4 : env.fetch URL_PROMPT_GMC_PB = .ok p4)
    (h5 : env.fetch URL_PROMPT_ABUSE = .ok p5)
    (h6 : env.fetch URL_PROMPT_AUDITORIA = .ok p6)
    (hs : ∀ i, i < 6 → (send_message_with_retry (env.send i) 3).result = some (.ok (resp i))) :
    execute_grading_flow env true files =
      ⟨.ok ((resp 5).text, (resp 5).prompt_token_count, (resp 5).candidates_token_count),
       [MsgPart.text p1 :: files.map (fun f => MsgPart.pdf (env.readFile f)),
        [MsgPart.text p2], [MsgPart.text p3], [MsgPart.text p4],
        [MsgPart.text p5], [MsgPart.text p6]]⟩ := by
  have hs0 := hs 0 (by omega)
  have hs1 := hs 1 (by omega)
  have hs2 := hs 2 (by omega)
  have hs3 := hs 3 (by omega)
  have hs4 := hs 4 (by omega)
  have hs5 := hs 5 (by omega)
  cases files <;>
    simp [execute_grading_flow, flow_steps, runSteps, h1, h2, h3, h4, h5, h6,
      hs0, hs1, hs2, hs3, hs4, hs5]

/-- C2: on an initialized session whose fetches and retried sends succeed,
the outgoing prompts are exactly the six configured review steps in the
declared order, and the case-document attachments are appended to the
first step's message only, in the order the documents were produced. -/
theorem c2_step_order (env : ChatEnv) (files : List String)
    (p1 p2 p3 p4 p5 p6 : String) (resp : Nat → StepResponse)
    (h1 : env.fetch URL_PROMPT_QUALIFYING = .ok p1)
    (h2 : env.fetch URL_PROMPT_GFM = .ok p2)
    (h3 : env.fetch URL_PROMPT_JOINT_RESIDENCE = .ok p3)
    (h4 : env.fetch URL_PROMPT_GMC_PB = .ok p4)
    (h5 : env.fetch URL_PROMPT_ABUSE = .ok p5)
    (h6 : env.fetch URL_PROMPT_AUDITORIA = .ok p6)
    (hs : ∀ i, i < 6 → (send_message_with_retry (env.send i) 3).result = some (.ok (resp i))) :
    (execute_grading_flow env true files).sent =
      [MsgPart.text p1 :: files.map (fun f => MsgPart.pdf (env.readFile f)),
       [MsgPart.text p2], [MsgPart.text p3], [MsgPart.text p4],
       [MsgPart.text p5], [MsgPart.text p6]]
    ∧ flow_steps.map (fun s => s.1) =
      ["Qualifying Relationship", "Good Faith Character (GFC)", "Joint Residence",
       "GMC / Permanent Bar", "Presence of Abuse", "Auditoria Final"] := by
  rw [flow_run_ok env files p1 p2 p3 p4 p5 p6 resp h1 h2 h3 h4 h5 h6 hs]
  exact ⟨rfl, rfl⟩

/-- C2 witness: the theorem at a concrete environment with two patient
files. -/
theorem c2_step_order_witness :
    varChatEnv.fetch URL_PROMPT_QUALIFYING = .ok ("PROMPT " ++ URL_PROMPT_QUALIFYING)
    ∧ ((execute_grading_flow varChatEnv true ["a.pdf", "b.pdf"]).sent =
        [MsgPart.text ("PROMPT " ++ URL_PROMPT_QUALIFYING)
           :: (["a.pdf", "b.pdf"].map (fun f => MsgPart.pdf (varChatEnv.readFile f))),
         [MsgPart.text ("PROMPT " ++ URL_PROMPT_GFM)],
         [MsgPart.text ("PROMPT " ++ URL_PROMPT_JOINT_RESIDENCE)],
         [MsgPart.text ("PROMPT " ++ URL_PROMPT_GMC_PB)],
         [MsgPart.text ("PROMPT " ++ URL_PROMPT_ABUSE)],
         [MsgPart.text ("PROMPT " ++ URL_PROMPT_AUDITORIA)]]
      ∧ flow_steps.map (fun s => s.1) =
        ["Qualifying Relationship", "Good Faith Character (GFC)", "Joint Residence",
         "GMC / Permanent Bar", "Presence of Abuse", "Auditoria Final"]) :=
  ⟨rfl, c2_step_order varChatEnv ["a.pdf", "b.pdf"] _ _ _ _ _ _ stepResp
    rfl rfl rfl rfl rfl rfl (fun _ _ => rfl)⟩

/-- C8: the token counts returned by a completed review flow are exactly
those of the final (sixth) step's response usage metadata — the per-step
usages of earlier steps are not summed or included (the result is
independent of `resp 0 … resp 4`). -/
theorem c8_tokens_final_step (env : ChatEnv) (files : List String)
    (p1 p2 p3 p4 p5 p6 : String) (resp : Nat → StepResponse)
    (h1 : env.fetch URL_PROMPT_QUALIFYING = .ok p1)
    (h2 : env.fetch URL_PROMPT_GFM = .ok p2)
    (h3 : env.fetch URL_PROMPT_JOINT_RESIDENCE = .ok p3)
    (h4 : env.fetch URL_PROMPT_GMC_PB = .ok p4)
    (h5 : env.fetch URL_PROMPT_ABUSE = .ok p5)
    (h6 : env.fetch URL_PROMPT_AUDITORIA = .ok p6)
    (hs : ∀ i, i < 6 → (send_message_with_retry (env.send i) 3).result = some (.ok (resp i))) :
    (execute_grading_flow env true files).result =
      .ok ((resp 5).text, (resp 5).prompt_token_count, (resp 5).candidates_token_count) := by
  rw [flow_run_ok env files p1 p2 p3 p4 p5 p6 resp h1 h2 h3 h4 h5 h6 hs]

/-- C8 witness: with per-step usages 100·(i+1) input and 7·(i+1) output
tokens, the flow reports exactly the sixth step's (600, 42) — not any sum. -/
theorem c8_tokens_final_step_witness :
    (∀ i, i < 6 → (send_message_with_retry (varChatEnv.send i) 3).result
      = some (.ok (stepResp i)))
    ∧ (execute_grading_flow varChatEnv true ["a.pdf"]).result
      = .ok ("response 5", 600, 42) :=
  ⟨fun _ _ => rfl,
   c8_tokens_final_step varChatEnv ["a.pdf"] _ _ _ _ _ _ stepResp
     rfl rfl rfl rfl rfl rfl (fun _ _ => rfl)⟩

/-- The effect performed by `update_status` records whether the underlying
cell write succeeded. -/
theorem update_status_effects (env : SheetsEnv) (row : Nat) (st : String) :
    (update_status env row st).2 = [Effect.cellWrite row st (env.cellWriteOk row st)] := by
  unfold update_status update_cell
  cases h : env.cellWriteOk row st <;> simp

/-- Every job returned by the scan starting at row `start` sits at row
`start` or later. -/
theorem scan_jobs_ge (env : SheetsEnv) (rows : List (List String)) :
    ∀ (start : Nat) (j : Job), j ∈ (scanRows env start rows).1 → start ≤ j.row_idx := by
  induction rows with
  | nil => intro start j hj; simp [scanRows] at hj
  | cons r rest ih =>
    intro start j hj
    simp only [scanRows] at hj
    split at hj
    · exact Nat.le_trans (Nat.le_succ start) (ih (start + 1) j hj)
    · split at hj
      · split at hj
        · split at hj
          · exact Nat.le_trans (Nat.le_succ start) (ih (start + 1) j hj)
          · rcases List.mem_cons.mp hj with rfl | h
            · exact Nat.le_refl start
            · exact Nat.le_trans (Nat.le_succ start) (ih (start + 1) j h)
        · exact Nat.le_trans (Nat.le_succ start) (ih (start + 1) j hj)
      · exact Nat.le_trans (Nat.le_succ start) (ih (start + 1) j hj)

/-- The jobs returned by the scan are in strictly ascending row order. -/
theorem scan_sorted (env : SheetsEnv) (rows : List (List String)) :
    ∀ start : Nat, List.Pairwise (· < ·) (((scanRows env start rows).1).map Job.row_idx) := by
  induction rows with
  | nil => intro start; simp [scanRows]
  | cons r rest ih =>
    intro start
    simp only [scanRows]
    split
    · exact ih (start + 1)
    · split
      · split
        · split
          · exact ih (start + 1)
          · refine List.pairwise_cons.mpr ⟨?_, ih (start + 1)⟩
            intro b hb
            obtain ⟨j, hj, rfl⟩ := List.mem_map.mp hb
            have h1 := scan_jobs_ge env rest (start + 1) j hj
            show start < j.row_idx
            omega
        · exact ih (start + 1)
      · exact ih (start + 1)

/-- Every job returned by the scan has non-empty transcript and summary
links. -/
theorem scan_links (env : SheetsEnv) (rows : List (List String)) :
    ∀ (start : Nat) (j : Job), j ∈ (scanRows env start rows).1 →
      j.transcript ≠ "" ∧ j.summary ≠ "" := by
  induction rows with
  | nil => intro start j hj; simp [scanRows] at hj
  | cons r rest ih =>
    intro start j hj
    simp only [scanRows] at hj
    split at hj
    · exact ih _ j hj
    · split at hj
      · split at hj
        · split at hj
          · exact ih _ j hj
          · next hnot =>
            rcases List.mem_cons.mp hj with rfl | h
            · push_neg at hnot
              exact ⟨hnot.1, hnot.2⟩
            · exact ih _ j h
        · exact ih _ j hj
      · exact ih _ j hj

/-- A `PENDING PROCESSING` row below the header with a missing main link is
written back `ERROR: MAIN LINK MISSING` during the scan and excluded from
the returned jobs. -/
theorem scan_missing (env : SheetsEnv) (rows : List (List String)) :
    ∀ (start n : Nat) (row : List String),
      rows.get? n = some row → start + n ≠ 1 →
      3 ≤ row.length → pyStrip (cellAt row 3) = "PENDING PROCESSING" →
      (cellAt row 5 = "" ∨ cellAt row 10 = "") →
      (∃ b, Effect.cellWrite (start + n) "ERROR: MAIN LINK MISSING" b
          ∈ (scanRows env start rows).2)
      ∧ ∀ j ∈ (scanRows env start rows).1, j.row_idx ≠ start + n := by
  induction rows with
  | nil => intro start n row h; simp at h
  | cons r rest ih =>
    intro start n row hget hne hlen hst hmiss
    cases n with
    | zero =>
      have hr : r = row := by simpa using hget
      subst hr
      have hstart : start ≠ 1 := by omega
      simp only [scanRows, Nat.add_zero]
      rw [if_neg hstart, if_pos hlen, if_pos hst, if_pos hmiss]
      constructor
      · exact ⟨env.cellWriteOk start "ERROR: MAIN LINK MISSING",
          by rw [update_status_effects]; exact List.mem_append_left _ (List.mem_singleton.mpr rfl)⟩
      · intro j hj
        have := scan_jobs_ge env rest (start + 1) j hj
        omega
    | succ m =>
      have hget' : rest.get? m = some row := by simpa using hget
      have heq : start + 1 + m = start + (m + 1) := by omega
      have hne' : start + 1 + m ≠ 1 := by omega
      obtain ⟨⟨b, hb⟩, hjobs⟩ := ih (start + 1) m row hget' hne' hlen hst hmiss
      rw [heq] at hb hjobs
      simp only [scanRows]
      split
      · exact ⟨⟨b, hb⟩, hjobs⟩
      · split
        · split
          · split
            · refine ⟨⟨b, List.mem_append_right _ hb⟩, hjobs⟩
            · refine ⟨⟨b, hb⟩, ?_⟩
              intro j hj
              rcases List.mem_cons.mp hj with rfl | h
              · show start ≠ start + (m + 1)
                omega
              · exact hjobs j h
          · exact ⟨⟨b, hb⟩, hjobs⟩
        · exact ⟨⟨b, hb⟩, hjobs⟩

/-- C1: every row whose status column is the sentinel `PENDING PROCESSING`
(`n` is the 0-based position in `get_all_values()`, so the 1-based row
index is `1 + n`; `1 ≤ n` excludes the header) that is missing a mandatory
link (transcript, column E, or summary, column J) is written back
`ERROR: MAIN LINK MISSING` during the scan itself and excluded from the
returned jobs; every returned job has both mandatory links non-empty, and
the returned jobs are in strictly ascending row order. -/
theorem c1_pending_validation (env : SheetsEnv) (rows : List (List String))
    (n : Nat) (row : List String)
    (hn : 1 ≤ n) (hget : rows.get? n = some row)
    (hlen : 3 ≤ row.length)
    (hst : pyStrip (cellAt row 3) = "PENDING PROCESSING")
    (hmiss : cellAt row 5 = "" ∨ cellAt row 10 = "") :
    (∃ b, Effect.cellWrite (1 + n) "ERROR: MAIN LINK MISSING" b
        ∈ (get_pending_rows env rows).2)
    ∧ (∀ j ∈ (get_pending_rows env rows).1, j.row_idx ≠ 1 + n)
    ∧ (∀ j ∈ (get_pending_rows env rows).1, j.transcript ≠ "" ∧ j.summary ≠ "")
    ∧ List.Pairwise (· < ·) (((get_pending_rows env rows).1).map Job.row_idx) := by
  obtain ⟨h1, h2⟩ := scan_missing env rows 1 n row hget (by omega) hlen hst hmiss
  exact ⟨h1, h2, fun j hj => scan_links env rows 1 j hj, scan_sorted env rows 1⟩

/-- C1 witness: the theorem at a concrete sheet whose second row is
`PENDING PROCESSING` with no transcript link. -/
theorem c1_pending_validation_witness :
    (wRows.get? 1 = some ["id1", "Alice", "PENDING PROCESSING"]
      ∧ pyStrip (cellAt ["id1", "Alice", "PENDING PROCESSING"] 3) = "PENDING PROCESSING"
      ∧ cellAt ["id1", "Alice", "PENDING PROCESSING"] 5 = "")
    ∧ ((∃ b, Effect.cellWrite 2 "ERROR: MAIN LINK MISSING" b
          ∈ (get_pending_rows allOkSheets wRows).2)
      ∧ (∀ j ∈ (get_pending_rows allOkSheets wRows).1, j.row_idx ≠ 2)
      ∧ (∀ j ∈ (get_pending_rows allOkSheets wRows).1, j.transcript ≠ "" ∧ j.summary ≠ "")
      ∧ List.Pairwise (· < ·) (((get_pending_rows allOkSheets wRows).1).map Job.row_idx)) :=
  ⟨⟨rfl, by decide, rfl⟩,
   c1_pending_validation allOkSheets wRows 1 ["id1", "Alice", "PENDING PROCESSING"]
     (by decide) rfl (by decide) (by decide) (Or.inl rfl)⟩

/-- The effect performed by `mark_processing_start` records whether the
batched write succeeded. -/
theorem mark_start_effects (env : SheetsEnv) (now row : Nat) :
    (mark_processing_start env now row).2
      = [Effect.batchStart row now (env.batchOk row)] := by
  unfold mark_processing_start batch_update
  cases h : env.batchOk row <;> simp

/-- If every plausible locator's download fails, no patient PDF is
collected. -/
theorem downloadLoop_all_fail (download : String → Except String Unit)
    (l : List (String × String))
    (h : ∀ d ∈ l, 5 < d.2.length → ∃ e, download d.2 = .error e) :
    (downloadLoop download l).1 = [] := by
  induction l with
  | nil => rfl
  | cons d rest ih =>
    obtain ⟨docType, url⟩ := d
    simp only [downloadLoop]
    split
    · next hlen =>
      obtain ⟨e, he⟩ := h (docType, url) (List.mem_cons_self _ _) hlen
      rw [he]
      exact ih fun d' hd' hl' => h d' (List.mem_cons_of_mem _ hd') hl'
    · exact ih fun d' hd' hl' => h d' (List.mem_cons_of_mem _ hd') hl'

/-- The download loop never performs an AI call. -/
theorem downloadLoop_no_aiCall (download : String → Except String Unit)
    (l : List (String × String)) :
    Effect.aiCall ∉ (downloadLoop download l).2 := by
  induction l with
  | nil => simp [downloadLoop]
  | cons d rest ih =>
    obtain ⟨docType, url⟩ := d
    simp only [downloadLoop]
    split
    · cases he : download url <;> simp [List.mem_cons, ih]
    · exact ih

/-- C3: when zero documents normalize successfully (every plausible
locator's download fails), `process_single_case` performs no AI call, the
job's status is set to `ERROR: ` followed by the `NoDocumentsError`
message (truncated to 50 characters), and the runner proceeds to the next
job rather than aborting the run. -/
theorem c3_no_documents (env : JobEnv) (j : Job) (rest : List Job)
    (hall : ∀ d ∈ docs_to_download j, 5 < d.2.length → ∃ e, env.download d.2 = .error e) :
    Effect.aiCall ∉ process_single_case env j
    ∧ (∃ b, Effect.cellWrite j.row_idx (truncMsg noDocsMsg) b ∈ process_single_case env j)
    ∧ process_all env (j :: rest) = process_single_case env j ++ process_all env rest := by
  have hdl := downloadLoop_all_fail env.download (docs_to_download j) hall
  refine ⟨?_, ?_, rfl⟩
  · simp only [process_single_case, hdl, List.isEmpty_nil, if_true]
    simp [mark_start_effects, update_status_effects, downloadLoop_no_aiCall env.download]
  · refine ⟨env.sheets.cellWriteOk j.row_idx (truncMsg noDocsMsg), ?_⟩
    simp only [process_single_case, hdl, List.isEmpty_nil, if_true]
    rw [update_status_effects]
    exact List.mem_append_right _ (List.mem_singleton.mpr rfl)

/-- C3 witness: the theorem at an environment where every download fails. -/
theorem c3_no_documents_witness :
    (∀ d ∈ docs_to_download c3Job, 5 < d.2.length
      → ∃ e, c3Env.download d.2 = .error e)
    ∧ (Effect.aiCall ∉ process_single_case c3Env c3Job
      ∧ (∃ b, Effect.cellWrite c3Job.row_idx (truncMsg noDocsMsg) b
          ∈ process_single_case c3Env c3Job)
      ∧ process_all c3Env [c3Job] = process_single_case c3Env c3Job ++ process_all c3Env []) :=
  ⟨fun _ _ _ => ⟨"HttpError 404", rfl⟩,
   c3_no_documents c3Env c3Job [] (fun _ _ _ => ⟨"HttpError 404", rfl⟩)⟩

/-- C4 (code bug evidence): in a fully successful run where
`mark_processing_start` recorded t = 1000 s and the results are written at
t = 1120 s (120 s elapsed), the K–R write produced by the pipeline carries
`duration = 0` centiminutes (and re-writes the start column P with the end
timestamp 1120), because `process_single_case` builds `result_data`
without a `start_time` key and `write_grading_results` defaults the start
to `end_time`; the claimed value — end minus the start recorded by
`mark_processing_start` — is 200 centiminutes, not 0.  The status is still
set to `COMPLETED` afterwards. -/
theorem c4_duration_written_is_zero :
    Effect.batchStart 2 1000 true ∈ process_single_case c4Env c4Job
    ∧ Effect.rangeWrite 2
        ⟨"http://result-link", "", 600, 42, "v1.0.0", 1120, 1120, 0⟩ true
        ∈ process_single_case c4Env c4Job
    ∧ Effect.cellWrite 2 "COMPLETED" true ∈ process_single_case c4Env c4Job
    ∧ durationCentimin (c4Env.nowEnd - c4Env.nowStart) = 200
    ∧ (0 : Nat) ≠ 200 := by
  refine ⟨by decide, by decide, by decide, by decide, by decide⟩

/-- Erasing success flags on the `update_status` trace. -/
theorem update_status_erased (env : SheetsEnv) (row : Nat) (st : String) :
    ((update_status env row st).2).map eraseOk = [Effect.cellWrite row st true] := by
  rw [update_status_effects]; rfl

/-- Erasing success flags on the `mark_processing_start` trace. -/
theorem mark_start_erased (env : SheetsEnv) (now row : Nat) :
    ((mark_processing_start env now row).2).map eraseOk
      = [Effect.batchStart row now true] := by
  rw [mark_start_effects]; rfl

/-- Erasing success flags on the `write_grading_results` trace: only
`rangeWriteOk` is still visible, through the follow-up status string. -/
theorem write_results_erased (env : SheetsEnv) (endT row : Nat) (d : ResultData) :
    ((write_grading_results env endT row d).2).map eraseOk
      = [Effect.rangeWrite row (mkRowValues endT d) true,
         Effect.cellWrite row
           (if env.rangeWriteOk row then "COMPLETED" else "ERROR SAVING RESULTS") true] := by
  unfold write_grading_results rangeUpdate
  cases h : env.rangeWriteOk row <;> simp [h, update_status_effects, eraseOk]

/-- Download effects carry no sheet-write flag: erasure is the identity. -/
theorem downloadLoop_erased (download : String → Except String Unit)
    (l : List (String × String)) :
    ((downloadLoop download l).2).map eraseOk = (downloadLoop download l).2 := by
  induction l with
  | nil => rfl
  | cons d rest ih =>
    obtain ⟨docType, url⟩ := d
    simp only [downloadLoop]
    split
    · cases he : download url <;> simp [eraseOk, ih]
    · exact ih

/-- The trace of `process_single_case` with sheet-write success flags
erased depends on the sheets backend only through `rangeWriteOk`. -/
theorem process_erased (env : JobEnv) (j : Job) :
    (process_single_case env j).map eraseOk
      = erasedProcess env.download env.chat env.uploadRes env.sheets.rangeWriteOk
          env.nowStart env.nowEnd j := by
  simp only [process_single_case, erasedProcess]
  split
  · simp [mark_start_erased, update_status_erased, downloadLoop_erased]
  · split
    · simp [mark_start_erased, update_status_erased, downloadLoop_erased, eraseOk]
    · split
      · simp [mark_start_erased, update_status_erased, downloadLoop_erased, eraseOk]
      · simp [mark_start_erased, update_status_erased, downloadLoop_erased,
          write_results_erased, eraseOk]

/-- The jobs returned by the scan do not depend on the sheets backend
(only the effect trace does). -/
theorem scan_jobs_env_indep (s1 s2 : SheetsEnv) (rows : List (List String)) :
    ∀ start, (scanRows s1 start rows).1 = (scanRows s2 start rows).1 := by
  induction rows with
  | nil => intro start; rfl
  | cons r rest ih =>
    intro start
    simp only [scanRows]
    split
    · exact ih (start + 1)
    · split
      · split
        · split
          · exact ih (start + 1)
          · simp [ih (start + 1)]
        · exact ih (start + 1)
      · exact ih (start + 1)

/-- C10: `update_status` and `mark_processing_start` catch every exception
internally and return normally; consequently the jobs selected by
`get_pending_rows` are independent of whether any status write succeeds,
and the control flow of `process_single_case` (its trace up to sheet-write
success flags) is unchanged when plain status writes or the start-marking
batch write fail. -/
theorem c10_status_writes_swallowed :
    (∀ (env : SheetsEnv) (row : Nat) (st : String),
      (update_status env row st).1 = .ok ())
    ∧ (∀ (env : SheetsEnv) (now row : Nat),
      (mark_processing_start env now row).1 = .ok ())
    ∧ (∀ (s1 s2 : SheetsEnv) (rows : List (List String)),
      (get_pending_rows s1 rows).1 = (get_pending_rows s2 rows).1)
    ∧ (∀ (env : JobEnv) (c1 c2 : Nat → String → Bool) (b1 b2 : Nat → Bool)
        (r : Nat → Bool) (j : Job),
      (process_single_case { env with sheets := ⟨c1, b1, r⟩ } j).map eraseOk
        = (process_single_case { env with sheets := ⟨c2, b2, r⟩ } j).map eraseOk) := by
  refine ⟨?_, ?_, ?_, ?_⟩
  · intro env row st
    unfold update_status
    cases h : update_cell env row st <;> simp
  · intro env now row
    unfold mark_processing_start
    cases h : batch_update env row <;> simp
  · intro s1 s2 rows
    exact scan_jobs_env_indep s1 s2 rows 1
  · intro env c1 c2 b1 b2 r j
    rw [process_erased, process_erased]
